import Mathlib

/-!
Verification of the two dashboard scripts in this repository:
`scripts/AutomobileSalesDashboard.py` and `scripts/SpaceXLaunchDashboard.py`.

Datasets are embedded as lists of rows; pandas groupby/aggregate calls are
embedded as explicit key-sorting, filtering and folding over those lists;
plotly figures are modelled by the data series they are built from (titles
and styling are presentational and carry no aggregated data).  Numeric
columns are rationals, integer columns are integers.
-/

/-! ### Generic list helpers (pandas groupby semantics) -/

/-- Insert `x` into a list assumed sorted by `le`, keeping it sorted. -/
def insertLe {K : Type} (le : K → K → Bool) (x : K) : List K → List K
  | [] => [x]
  | y :: ys => if le x y then x :: y :: ys else y :: insertLe le x ys

/-- Insertion sort by the boolean relation `le`.  pandas `groupby` sorts the
group keys in ascending order; this models that ordering. -/
def sortLe {K : Type} (le : K → K → Bool) : List K → List K
  | [] => []
  | x :: xs => insertLe le x (sortLe le xs)

/-- Ascending order on integer keys (`Year`). -/
def intLe (a b : Int) : Bool := decide (a ≤ b)

/-- Lexicographic comparison of character lists by code point. -/
def charListLt : List Char → List Char → Bool
  | [], [] => false
  | [], _ :: _ => true
  | _ :: _, [] => false
  | c :: cs, d :: ds =>
    if c.toNat < d.toNat then true
    else if d.toNat < c.toNat then false
    else charListLt cs ds

/-- Strict lexicographic order on strings by code point, matching the
ascending key order pandas uses for string group keys. -/
def strLt (a b : String) : Bool := charListLt a.data b.data

/-- Ascending lexicographic order on string keys (`Month`, `Vehicle_Type`,
`Launch Site`). -/
def strLe (a b : String) : Bool := strLt a b || decide (a = b)

/-- The distinct keys of `df` under `key`, in ascending `le` order: the index
of a pandas `groupby(key)` result. -/
def sortedKeys {K R : Type} [DecidableEq K] (le : K → K → Bool)
    (df : List R) (key : R → K) : List K :=
  sortLe le (df.map key).dedup

/-- The values of column `val` in the group of `df` whose `key` equals `k`. -/
def groupVals {K R : Type} [DecidableEq K]
    (df : List R) (key : R → K) (val : R → ℚ) (k : K) : List ℚ :=
  (df.filter (fun r => decide (key r = k))).map val

/-- Arithmetic mean of a list of rationals (groups are nonempty, so the
division is never by zero on reachable inputs). -/
def listMean (vs : List ℚ) : ℚ := vs.sum / (vs.length : ℚ)

/-- `df.groupby(key)[val].mean()`: per-group mean of `val`. -/
def meanBy {K R : Type} [DecidableEq K] (le : K → K → Bool)
    (df : List R) (key : R → K) (val : R → ℚ) : List (K × ℚ) :=
  (sortedKeys le df key).map (fun k => (k, listMean (groupVals df key val k)))

/-- `df.groupby(key)[val].sum()`: per-group sum of `val`. -/
def sumBy {K R : Type} [DecidableEq K] (le : K → K → Bool)
    (df : List R) (key : R → K) (val : R → ℚ) : List (K × ℚ) :=
  (sortedKeys le df key).map (fun k => (k, (groupVals df key val k).sum))

/-- `df.groupby(key).agg({v1: 'mean', v2: 'mean'})`: per-group means of the
two columns, in the order they appear in the aggregation dictionary. -/
def meanMeanBy {K R : Type} [DecidableEq K] (le : K → K → Bool)
    (df : List R) (key : R → K) (v1 v2 : R → ℚ) : List (K × ℚ × ℚ) :=
  (sortedKeys le df key).map
    (fun k => (k, listMean (groupVals df key v1 k), listMean (groupVals df key v2 k)))

/-- Per-group sum of an integer-valued column (plotly `px.pie` aggregates
duplicate `names` by summing their `values`). -/
def sumIntBy {K R : Type} [DecidableEq K] (le : K → K → Bool)
    (df : List R) (key : R → K) (val : R → Int) : List (K × Int) :=
  (sortedKeys le df key).map
    (fun k => (k, ((df.filter (fun r => decide (key r = k))).map val).sum))

/-- `df.groupby(key).size()`: per-group row count. -/
def sizeBy {K R : Type} [DecidableEq K] (le : K → K → Bool)
    (df : List R) (key : R → K) : List (K × Nat) :=
  (sortedKeys le df key).map
    (fun k => (k, (df.filter (fun r => decide (key r = k))).length))

/-! ### AutomobileSalesDashboard.py: data model -/

/-- One row of the historical automobile sales CSV, with the columns the
script touches.  `GDP` is present in the data and the docstring but is never
read by any aggregation. -/
structure AutoRow where
  Year : Int
  Month : String
  Automobile_Sales : ℚ
  Vehicle_Type : String
  Advertising_Expenditure : ℚ
  Recession : Int
  unemployment_rate : ℚ
  GDP : ℚ
deriving DecidableEq, Repr

/-- `df = df[(df['Year'] >= 1980) & (df['Year'] <= 2013)]`: the startup
filtering step that produces the retained dataset. -/
def filterYears (df : List AutoRow) : List AutoRow :=
  df.filter (fun r => decide (1980 ≤ r.Year) && decide (r.Year ≤ 2013))

/-- The value `update_output` returns, modelled by the data series of its
four figures.  Yearly mode: line (Year, mean sales), line (Month, summed
sales), bar (Vehicle_Type, mean sales), pie (Vehicle_Type, summed
advertising expenditure).  Recession mode: line (Year, mean sales), bar
(Vehicle_Type, mean sales), pie (Vehicle_Type, summed advertising
expenditure), grouped bar (Vehicle_Type, mean unemployment_rate, mean
sales). -/
inductive Output where
  | yearly (fig1 : List (Int × ℚ)) (fig2 : List (String × ℚ))
      (fig3 : List (String × ℚ)) (fig4 : List (String × ℚ))
  | recession (fig1 : List (Int × ℚ)) (fig2 : List (String × ℚ))
      (fig3 : List (String × ℚ)) (fig4 : List (String × ℚ × ℚ))
deriving DecidableEq, Repr

/-- The yearly branch of `update_output` (lines 110-130 of the script). -/
def yearly_output (df : List AutoRow) (selected_year : Int) : Output :=
  let yearly_sales := meanBy intLe df (fun r => r.Year) (fun r => r.Automobile_Sales)
  let dfy := df.filter (fun r => decide (r.Year = selected_year))
  let monthly_sales := sumBy strLe dfy (fun r => r.Month) (fun r => r.Automobile_Sales)
  let avg_sales_by_type := meanBy strLe dfy (fun r => r.Vehicle_Type) (fun r => r.Automobile_Sales)
  let ad_exp_by_type := sumBy strLe dfy (fun r => r.Vehicle_Type) (fun r => r.Advertising_Expenditure)
  Output.yearly yearly_sales monthly_sales avg_sales_by_type ad_exp_by_type

/-- The recession branch of `update_output` (lines 131-155 of the script).
`recession_df = df[df['Recession'] == 1]`, then the four aggregations. -/
def recession_output (df : List AutoRow) : Output :=
  let recession_df := df.filter (fun r => decide (r.Recession = 1))
  let recession_sales := meanBy intLe recession_df (fun r => r.Year) (fun r => r.Automobile_Sales)
  let avg_sales_by_type := meanBy strLe recession_df (fun r => r.Vehicle_Type) (fun r => r.Automobile_Sales)
  let ad_exp_by_type := sumBy strLe recession_df (fun r => r.Vehicle_Type) (fun r => r.Advertising_Expenditure)
  let avg_unemp_sales := meanMeanBy strLe recession_df (fun r => r.Vehicle_Type)
    (fun r => r.unemployment_rate) (fun r => r.Automobile_Sales)
  Output.recession recession_sales avg_sales_by_type ad_exp_by_type avg_unemp_sales

/-- The `update_output` callback: branch on the report type, compute the four
figures of the chosen mode. -/
def update_output (df : List AutoRow) (report_type : String) (selected_year : Int) : Output :=
  if report_type = "yearly" then yearly_output df selected_year
  else recession_output df

/-- The `update_year_dropdown` callback: `False` (enabled) for report type
`'yearly'`, `True` (disabled) otherwise. -/
def update_year_dropdown (report_type : String) : Bool :=
  if report_type = "yearly" then false else true

/-! ### SpaceXLaunchDashboard.py: data model -/

/-- One row of the SpaceX launch CSV, with the columns the script touches.
`PayloadMass` is the renamed `Payload Mass (kg)` column; `LaunchSite` embeds
the `Launch Site` column; `class` is the 0/1 success flag. -/
structure LaunchRow where
  LaunchSite : String
  PayloadMass : ℚ
  «class» : Int
  BoosterVersionCategory : String
deriving DecidableEq, Repr

/-- `min_payload = df['PayloadMass'].min()`, computed once at load time. -/
def min_payload (df : List LaunchRow) : ℚ :=
  match df.map (fun r => r.PayloadMass) with
  | [] => 0
  | x :: xs => xs.foldl min x

/-- `max_payload = df['PayloadMass'].max()`, computed once at load time. -/
def max_payload (df : List LaunchRow) : ℚ :=
  match df.map (fun r => r.PayloadMass) with
  | [] => 0
  | x :: xs => xs.foldl max x

/-- The declared configuration of the `dcc.RangeSlider` control: its bounds,
step, and initial selected value range. -/
structure RangeSliderConfig where
  min : ℚ
  max : ℚ
  step : ℚ
  value : ℚ × ℚ
deriving DecidableEq, Repr

/-- The `payload-slider` declared in the layout:
`dcc.RangeSlider(min=0, max=10000, step=1000, value=[min_payload, max_payload])`. -/
def payload_slider (df : List LaunchRow) : RangeSliderConfig :=
  ⟨0, 10000, 1000, (min_payload df, max_payload df)⟩

/-- The pie figure `get_pie_chart` returns, modelled by its data series.
`bySite`: one slice per launch site, weighted by the summed `class` column
(plotly aggregates duplicate names by summing values).  `byOutcome`: one
slice per (site, class) group of the site-filtered frame, weighted by the
group size. -/
inductive PieFig where
  | bySite (data : List (String × Int))
  | byOutcome (site : String) (data : List ((String × Int) × Nat))
deriving DecidableEq, Repr

/-- Lexicographic order on (Launch Site, class) group keys, matching the
ascending key order of `groupby(['Launch Site', 'class'])`. -/
def siteClassLe (a b : String × Int) : Bool :=
  strLt a.1 b.1 || (decide (a.1 = b.1) && decide (a.2 ≤ b.2))

/-- The `get_pie_chart` callback.  `'ALL'`: `px.pie(df, values='class',
names='Launch Site')`.  Otherwise: filter to the entered site, group by
(Launch Site, class), take group sizes as slice values. -/
def get_pie_chart (df : List LaunchRow) (entered_site : String) : PieFig :=
  if entered_site = "ALL" then
    PieFig.bySite (sumIntBy strLe df (fun r => r.LaunchSite) (fun r => r.«class»))
  else
    let filtered_df := df.filter (fun r => decide (r.LaunchSite = entered_site))
    PieFig.byOutcome entered_site
      (sizeBy siteClassLe filtered_df (fun r => (r.LaunchSite, r.«class»)))

/-- The `get_scatter_chart` callback, modelled by the row subset the scatter
plot is built from: rows whose `PayloadMass` lies in the inclusive slider
range, further restricted to the entered site unless it is `'ALL'`. -/
def get_scatter_chart (df : List LaunchRow) (entered_site : String)
    (payload_range : ℚ × ℚ) : List LaunchRow :=
  let filtered_df := df.filter
    (fun r => decide (payload_range.1 ≤ r.PayloadMass) && decide (r.PayloadMass ≤ payload_range.2))
  if entered_site = "ALL" then filtered_df
  else filtered_df.filter (fun r => decide (r.LaunchSite = entered_site))

/-! ### Process state

Each script holds its dataset (and, for the SpaceX script, the declared
slider configuration) as module-level state for the life of the server.  The
callback bodies only read that state; the state-passing wrappers below embed
them as state transformers so that frame properties can be stated. -/

/-- Module state of the automobile sales script: the retained dataset. -/
structure AutoState where
  df : List AutoRow
deriving DecidableEq, Repr

/-- Module state of the SpaceX script: the dataset and the declared slider
configuration. -/
structure SpaceXState where
  df : List LaunchRow
  slider : RangeSliderConfig
deriving DecidableEq, Repr

/-- The SpaceX module state as built at load time. -/
def initSpaceXState (df : List LaunchRow) : SpaceXState :=
  ⟨df, payload_slider df⟩

/-- `update_output` as a state transformer: the body reads `df` and assigns
no module-level name, so the state passes through unchanged. -/
def update_output_st (st : AutoState) (report_type : String) (selected_year : Int) :
    Output × AutoState :=
  (update_output st.df report_type selected_year, st)

/-- `update_year_dropdown` as a state transformer. -/
def update_year_dropdown_st (st : AutoState) (report_type : String) :
    Bool × AutoState :=
  (update_year_dropdown report_type, st)

/-- `get_pie_chart` as a state transformer. -/
def get_pie_chart_st (st : SpaceXState) (entered_site : String) :
    PieFig × SpaceXState :=
  (get_pie_chart st.df entered_site, st)

/-- `get_scatter_chart` as a state transformer. -/
def get_scatter_chart_st (st : SpaceXState) (entered_site : String)
    (payload_range : ℚ × ℚ) : List LaunchRow × SpaceXState :=
  (get_scatter_chart st.df entered_site payload_range, st)

/-! ### Concrete fixture datasets for witnesses and counterexamples -/

/-- A two-row launch fixture: one success at 500 kg, one failure at 2600 kg. -/
def launchEx : List LaunchRow :=
  [⟨"CCAFS LC-40", 500, 1, "v1.0"⟩, ⟨"VAFB SLC-4E", 2600, 0, "v1.1"⟩]

/-! ### Spec-side descriptions of the yearly aggregations (claim C1)

These four definitions follow the spec's wording for the yearly-mode
aggregations, to be compared against the callback embedding above. -/

/-- Spec aggregation (a): the mean of Automobile_Sales grouped by Year over
the full retained dataset. -/
def spec_mean_sales_by_year (df : List AutoRow) : List (Int × ℚ) :=
  meanBy intLe df (fun r => r.Year) (fun r => r.Automobile_Sales)

/-- Spec aggregation (b): the sum of Automobile_Sales grouped by Month over
the rows whose Year equals the selected year. -/
def spec_sum_sales_by_month (df : List AutoRow) (y : Int) : List (String × ℚ) :=
  sumBy strLe (df.filter (fun r => decide (r.Year = y)))
    (fun r => r.Month) (fun r => r.Automobile_Sales)

/-- Spec aggregation (c): the mean of Automobile_Sales grouped by
Vehicle_Type over the rows whose Year equals the selected year. -/
def spec_mean_sales_by_vehicle_type (df : List AutoRow) (y : Int) : List (String × ℚ) :=
  meanBy strLe (df.filter (fun r => decide (r.Year = y)))
    (fun r => r.Vehicle_Type) (fun r => r.Automobile_Sales)

/-- Spec aggregation (d): the sum of Advertising_Expenditure grouped by
Vehicle_Type over the rows whose Year equals the selected year. -/
def spec_sum_adexp_by_vehicle_type (df : List AutoRow) (y : Int) : List (String × ℚ) :=
  sumBy strLe (df.filter (fun r => decide (r.Year = y)))
    (fun r => r.Vehicle_Type) (fun r => r.Advertising_Expenditure)

/-- C1: for every dataset and selected year, yearly-mode `update_output`
computes exactly the four spec-described aggregations: mean sales by Year
over the full retained dataset, summed sales by Month, mean sales by
Vehicle_Type, and summed Advertising_Expenditure by Vehicle_Type, the last
three over the rows of the selected year. -/
theorem C1_yearly_aggregations (df : List AutoRow) (y : Int) :
    update_output df "yearly" y
      = Output.yearly (spec_mean_sales_by_year df) (spec_sum_sales_by_month df y)
          (spec_mean_sales_by_vehicle_type df y) (spec_sum_adexp_by_vehicle_type df y) := by
  rfl

/-- C2: recession-mode `update_output` depends only on the rows with
Recession = 1: its output on any dataset equals its output on the dataset
with every Recession ≠ 1 row removed, so every Recession = 0 row is excluded
from all four recession-mode aggregations. -/
theorem C2_recession_rows_only (df : List AutoRow) (y : Int) :
    update_output df "recession" y
      = update_output (df.filter (fun r => decide (r.Recession = 1))) "recession" y := by
  have h : ("recession" : String) ≠ "yearly" := by decide
  simp only [update_output, if_neg h, recession_output, List.filter_filter, Bool.and_self]

/-- C3: a row survives the startup year filtering exactly when it was in the
original dataset with 1980 ≤ Year ≤ 2013 (so every retained row is in
bounds and every in-bounds original row is retained), and no callback
modifies the module state afterwards. -/
theorem C3_year_bounds_invariant (original : List AutoRow) (r : AutoRow) :
    (r ∈ filterYears original ↔ r ∈ original ∧ 1980 ≤ r.Year ∧ r.Year ≤ 2013)
    ∧ (∀ (st : AutoState) (rt : String) (y : Int),
        (update_output_st st rt y).2 = st ∧ (update_year_dropdown_st st rt).2 = st) := by
  constructor
  · simp [filterYears, List.mem_filter, and_assoc]
  · intro st rt y
    exact ⟨rfl, rfl⟩

/-- C5: the scatter subset holds exactly the rows of the dataset whose
PayloadMass lies inclusively between the slider's two values, restricted to
the entered site unless 'ALL' is selected; in particular rows equal to
either bound are included. -/
theorem C5_scatter_inclusive_bounds (df : List LaunchRow) (s : String)
    (pr : ℚ × ℚ) (r : LaunchRow) :
    r ∈ get_scatter_chart df s pr
      ↔ r ∈ df ∧ pr.1 ≤ r.PayloadMass ∧ r.PayloadMass ≤ pr.2
          ∧ (s = "ALL" ∨ r.LaunchSite = s) := by
  unfold get_scatter_chart
  by_cases h : s = "ALL"
  · subst h
    simp [List.mem_filter, and_assoc]
  · simp [h, List.mem_filter, and_assoc]
    tauto

/-- C6 counterexample: on the two-row fixture the slider's declared min
bound is 0, not the dataset minimum 500, so the claim that the declared
bounds equal the dataset's min/max PayloadMass fails. -/
theorem C6_counterexample :
    ¬ ((payload_slider launchEx).min = min_payload launchEx
        ∧ (payload_slider launchEx).max = max_payload launchEx) := by
  decide

/-- C6 amended: the slider's declared bounds are the constants 0 and 10000
with step 1000; the dataset's min and max PayloadMass, computed once at load
time, seed the slider's initial selected value range instead. -/
theorem C6_slider_declared_config (df : List LaunchRow) :
    (payload_slider df).min = 0 ∧ (payload_slider df).max = 10000
    ∧ (payload_slider df).step = 1000
    ∧ (payload_slider df).value = (min_payload df, max_payload df) :=
  ⟨rfl, rfl, rfl, rfl⟩

/-- C7: `update_year_dropdown` returns disabled = False exactly for report
type 'yearly' and disabled = True for every other value. -/
theorem C7_year_dropdown_toggle (report_type : String) :
    (update_year_dropdown report_type = false ↔ report_type = "yearly")
    ∧ (update_year_dropdown report_type = true ↔ report_type ≠ "yearly") := by
  unfold update_year_dropdown
  by_cases h : report_type = "yearly" <;> simp [h]

/-- C8: every callback leaves the module state (dataset and declared control
configuration, including the payload slider's bounds) unchanged, and the
slider configuration after a scatter update is independent of which site was
entered. -/
theorem C8_callbacks_preserve_state (ast : AutoState) (sst : SpaceXState)
    (rt s1 s2 : String) (y : Int) (pr : ℚ × ℚ) :
    (update_output_st ast rt y).2 = ast
    ∧ (update_year_dropdown_st ast rt).2 = ast
    ∧ (get_pie_chart_st sst s1).2 = sst
    ∧ (get_scatter_chart_st sst s1 pr).2 = sst
    ∧ (get_scatter_chart_st sst s1 pr).2.slider = (get_scatter_chart_st sst s2 pr).2.slider :=
  ⟨rfl, rfl, rfl, rfl, rfl⟩

/-- C10: recession-mode output never reads the selected year: for any two
year values the callback produces identical outputs. -/
theorem C10_recession_ignores_year (df : List AutoRow) (y1 y2 : Int) :
    update_output df "recession" y1 = update_output df "recession" y2 := by
  rfl

/-! ### Partition lemmas: summing a column group-by-group equals summing it
over the whole frame. -/

theorem insertLe_perm {K : Type} (le : K → K → Bool) (x : K) (l : List K) :
    List.Perm (insertLe le x l) (x :: l) := by
  induction l with
  | nil => rfl
  | cons y ys ih =>
    unfold insertLe
    split
    · rfl
    · exact (ih.cons y).trans (List.Perm.swap x y ys)

theorem sortLe_perm {K : Type} (le : K → K → Bool) (l : List K) :
    List.Perm (sortLe le l) l := by
  induction l with
  | nil => rfl
  | cons x xs ih => exact (insertLe_perm le x (sortLe le xs)).trans (ih.cons x)

theorem sortedKeys_perm {K R : Type} [DecidableEq K] (le : K → K → Bool)
    (df : List R) (key : R → K) :
    List.Perm (sortedKeys le df key) ((df.map key).dedup) :=
  sortLe_perm le (df.map key).dedup

theorem nodup_sortedKeys {K R : Type} [DecidableEq K] (le : K → K → Bool)
    (df : List R) (key : R → K) :
    (sortedKeys le df key).Nodup :=
  (sortedKeys_perm le df key).nodup_iff.mpr (List.nodup_dedup _)

theorem self_mem_sortedKeys {K R : Type} [DecidableEq K] (le : K → K → Bool)
    {df : List R} (key : R → K) {r : R} (hr : r ∈ df) :
    key r ∈ sortedKeys le df key := by
  rw [(sortedKeys_perm le df key).mem_iff, List.mem_dedup]
  exact List.mem_map_of_mem key hr

/-- Summing an indicator over a duplicate-free key list that contains the
marked key yields the marked value. -/
theorem sum_map_ite_eq {K M : Type} [DecidableEq K] [AddCommMonoid M]
    (ks : List K) (k0 : K) (v : M) (hmem : k0 ∈ ks) (hnd : ks.Nodup) :
    (ks.map (fun k => if k0 = k then v else 0)).sum = v := by
  induction ks with
  | nil => cases hmem
  | cons k ks ih =>
    rw [List.nodup_cons] at hnd
    rcases List.mem_cons.mp hmem with h | h
    · subst h
      have hz : (ks.map (fun k => if k0 = k then v else 0)).sum = 0 := by
        apply List.sum_eq_zero
        intro x hx
        rcases List.mem_map.mp hx with ⟨k', hk', rfl⟩
        rw [if_neg]
        intro hkk
        exact hnd.1 (hkk ▸ hk')
      simp [hz]
    · have hne : k0 ≠ k := by
        intro hkk
        exact hnd.1 (hkk ▸ h)
      simp [hne, ih h hnd.2]

theorem sum_map_add_distrib {K M : Type} [AddCommMonoid M]
    (ks : List K) (f g : K → M) :
    (ks.map (fun k => f k + g k)).sum = (ks.map f).sum + (ks.map g).sum := by
  induction ks with
  | nil => simp
  | cons k ks ih =>
    simp only [List.map_cons, List.sum_cons, ih]
    exact add_add_add_comm (f k) (g k) (ks.map f).sum (ks.map g).sum

/-- Partition: summing the per-group sums of column `val` over a
duplicate-free key list covering all keys of `df` gives the sum of `val`
over `df`. -/
theorem groups_sum {K R M : Type} [DecidableEq K] [AddCommMonoid M]
    (ks : List K) (hnd : ks.Nodup) (df : List R) (key : R → K) (val : R → M)
    (hcov : ∀ r ∈ df, key r ∈ ks) :
    (ks.map (fun k => ((df.filter (fun r => decide (key r = k))).map val).sum)).sum
      = (df.map val).sum := by
  induction df with
  | nil => simp
  | cons r rest ih =>
    have hstep : ∀ k : K,
        (((r :: rest).filter (fun x => decide (key x = k))).map val).sum
          = (if key r = k then val r else 0)
            + ((rest.filter (fun x => decide (key x = k))).map val).sum := by
      intro k
      by_cases h : key r = k <;> simp [List.filter_cons, h]
    simp only [hstep]
    rw [sum_map_add_distrib]
    rw [sum_map_ite_eq ks (key r) (val r) (hcov r (List.mem_cons_self r rest)) hnd]
    rw [ih (fun x hx => hcov x (List.mem_cons_of_mem r hx))]
    simp

/-! ### Pie-slice totals (claim C4) -/

/-- The total weight of all slices of a pie figure: for the all-sites pie the
sum of the per-site summed class values, for a single-site pie the sum of the
per-outcome group sizes. -/
def pieSliceTotal : PieFig → Int
  | PieFig.bySite data => (data.map (fun kv => kv.2)).sum
  | PieFig.byOutcome _ data => (data.map (fun kv => (kv.2 : Int))).sum

/-- Summing a 0/1 column counts the rows where it is 1. -/
theorem sum_class_eq_success_count (df : List LaunchRow)
    (hc : ∀ r ∈ df, r.«class» = 0 ∨ r.«class» = 1) :
    (df.map (fun r => r.«class»)).sum
      = ((df.filter (fun r => decide (r.«class» = 1))).length : Int) := by
  induction df with
  | nil => rfl
  | cons r rest ih =>
    have hrest := ih (fun x hx => hc x (List.mem_cons_of_mem r hx))
    rcases hc r (List.mem_cons_self r rest) with h | h
    · simp [List.filter_cons, h, hrest]
    · simp [List.filter_cons, h, hrest]
      ring

theorem sum_map_one_int {R : Type} (l : List R) :
    (l.map (fun _ => (1 : Int))).sum = (l.length : Int) := by
  induction l with
  | nil => rfl
  | cons x xs ih =>
    simp [ih]
    ring

/-- C4 counterexample: on the two-row fixture (one success, one failure) the
all-sites pie weights slices by the summed 0/1 class column, so the slice
total is 1, not the full row count 2: the claim that the per-site totals sum
to the full row count of the dataset is false. -/
theorem C4_counterexample :
    ¬ (pieSliceTotal (get_pie_chart launchEx "ALL") = (launchEx.length : Int)) := by
  decide

/-- C4 amended: with 'ALL' selected the pie's per-site totals sum to the
number of successful launches (rows with class = 1), not the full row count;
with one specific site selected the per-class counts sum to the number of
rows whose Launch Site equals the selected site. -/
theorem C4_amended_pie_totals (df : List LaunchRow) (s : String)
    (hs : s ≠ "ALL") (hc : ∀ r ∈ df, r.«class» = 0 ∨ r.«class» = 1) :
    pieSliceTotal (get_pie_chart df "ALL")
        = ((df.filter (fun r => decide (r.«class» = 1))).length : Int)
    ∧ pieSliceTotal (get_pie_chart df s)
        = ((df.filter (fun r => decide (r.LaunchSite = s))).length : Int) := by
  constructor
  · have h0 : get_pie_chart df "ALL"
        = PieFig.bySite (sumIntBy strLe df (fun r => r.LaunchSite) (fun r => r.«class»)) := by
      unfold get_pie_chart
      rw [if_pos rfl]
    rw [h0]
    simp only [pieSliceTotal, sumIntBy, List.map_map, Function.comp_def]
    rw [groups_sum (sortedKeys strLe df (fun r => r.LaunchSite))
      (nodup_sortedKeys strLe df (fun r => r.LaunchSite)) df (fun r => r.LaunchSite)
      (fun r => r.«class») (fun r hr => self_mem_sortedKeys strLe (fun r => r.LaunchSite) hr)]
    exact sum_class_eq_success_count df hc
  · have h1 : get_pie_chart df s
        = PieFig.byOutcome s
            (sizeBy siteClassLe (df.filter (fun r => decide (r.LaunchSite = s)))
              (fun r => (r.LaunchSite, r.«class»))) := by
      unfold get_pie_chart
      rw [if_neg hs]
    rw [h1]
    simp only [pieSliceTotal, sizeBy, List.map_map, Function.comp_def]
    simp only [← sum_map_one_int]
    rw [groups_sum (sortedKeys siteClassLe (df.filter (fun r => decide (r.LaunchSite = s)))
        (fun r => (r.LaunchSite, r.«class»)))
      (nodup_sortedKeys siteClassLe (df.filter (fun r => decide (r.LaunchSite = s)))
        (fun r => (r.LaunchSite, r.«class»)))
      (df.filter (fun r => decide (r.LaunchSite = s))) (fun r => (r.LaunchSite, r.«class»))
      (fun _ => (1 : Int))
      (fun r hr => self_mem_sortedKeys siteClassLe (fun r => (r.LaunchSite, r.«class»)) hr)]

/-- C4 witness: the amended pie-total property instantiated on the two-row
fixture with site CCAFS LC-40. -/
theorem C4_amended_pie_totals_witness :
    pieSliceTotal (get_pie_chart launchEx "ALL")
        = ((launchEx.filter (fun r => decide (r.«class» = 1))).length : Int)
    ∧ pieSliceTotal (get_pie_chart launchEx "CCAFS LC-40")
        = ((launchEx.filter (fun r => decide (r.LaunchSite = "CCAFS LC-40"))).length : Int) :=
  C4_amended_pie_totals launchEx "CCAFS LC-40" (by decide) (by decide)

/-! ### The GDP column is never read (claim C9) -/

/-- Replace the GDP column by 0, keeping every other column. -/
def scrubGDP (r : AutoRow) : AutoRow :=
  ⟨r.Year, r.Month, r.Automobile_Sales, r.Vehicle_Type, r.Advertising_Expenditure,
    r.Recession, r.unemployment_rate, 0⟩

theorem map_map_inv {R K : Type} (g : R → R) (key : R → K)
    (hk : ∀ r, key (g r) = key r) (df : List R) :
    (df.map g).map key = df.map key := by
  rw [List.map_map]
  exact congrArg (fun f => List.map f df) (funext hk)

theorem filter_map_inv {R : Type} (g : R → R) (p : R → Bool)
    (hp : ∀ r, p (g r) = p r) (df : List R) :
    (df.map g).filter p = (df.filter p).map g := by
  rw [List.filter_map]
  congr 1
  exact List.filter_congr (fun r _ => hp r)

theorem sortedKeys_map_inv {K R : Type} [DecidableEq K] (le : K → K → Bool)
    (g : R → R) (key : R → K) (hk : ∀ r, key (g r) = key r) (df : List R) :
    sortedKeys le (df.map g) key = sortedKeys le df key := by
  unfold sortedKeys
  rw [map_map_inv g key hk df]

theorem groupVals_map_inv {K R : Type} [DecidableEq K]
    (g : R → R) (key : R → K) (val : R → ℚ)
    (hk : ∀ r, key (g r) = key r) (hv : ∀ r, val (g r) = val r)
    (df : List R) (k : K) :
    groupVals (df.map g) key val k = groupVals df key val k := by
  unfold groupVals
  rw [filter_map_inv g (fun r => decide (key r = k)) (fun r => by simp only [hk]) df, List.map_map]
  exact congrArg (fun f => List.map f (df.filter (fun r => decide (key r = k)))) (funext hv)

theorem meanBy_map_inv {K R : Type} [DecidableEq K] (le : K → K → Bool)
    (g : R → R) (key : R → K) (val : R → ℚ)
    (hk : ∀ r, key (g r) = key r) (hv : ∀ r, val (g r) = val r) (df : List R) :
    meanBy le (df.map g) key val = meanBy le df key val := by
  unfold meanBy
  rw [sortedKeys_map_inv le g key hk df]
  have h := groupVals_map_inv g key val hk hv df
  simp only [h]

theorem sumBy_map_inv {K R : Type} [DecidableEq K] (le : K → K → Bool)
    (g : R → R) (key : R → K) (val : R → ℚ)
    (hk : ∀ r, key (g r) = key r) (hv : ∀ r, val (g r) = val r) (df : List R) :
    sumBy le (df.map g) key val = sumBy le df key val := by
  unfold sumBy
  rw [sortedKeys_map_inv le g key hk df]
  have h := groupVals_map_inv g key val hk hv df
  simp only [h]

theorem meanMeanBy_map_inv {K R : Type} [DecidableEq K] (le : K → K → Bool)
    (g : R → R) (key : R → K) (v1 v2 : R → ℚ)
    (hk : ∀ r, key (g r) = key r) (hv1 : ∀ r, v1 (g r) = v1 r)
    (hv2 : ∀ r, v2 (g r) = v2 r) (df : List R) :
    meanMeanBy le (df.map g) key v1 v2 = meanMeanBy le df key v1 v2 := by
  unfold meanMeanBy
  rw [sortedKeys_map_inv le g key hk df]
  have h1 := groupVals_map_inv g key v1 hk hv1 df
  have h2 := groupVals_map_inv g key v2 hk hv2 df
  simp only [h1, h2]

theorem yearly_output_scrub (df : List AutoRow) (y : Int) :
    yearly_output (df.map scrubGDP) y = yearly_output df y := by
  simp only [yearly_output]
  rw [filter_map_inv scrubGDP (fun r => decide (r.Year = y)) (fun r => rfl) df]
  rw [meanBy_map_inv intLe scrubGDP (fun r => r.Year) (fun r => r.Automobile_Sales)
    (fun r => rfl) (fun r => rfl) df]
  rw [sumBy_map_inv strLe scrubGDP (fun r => r.Month) (fun r => r.Automobile_Sales)
    (fun r => rfl) (fun r => rfl) (df.filter (fun r => decide (r.Year = y)))]
  rw [meanBy_map_inv strLe scrubGDP (fun r => r.Vehicle_Type) (fun r => r.Automobile_Sales)
    (fun r => rfl) (fun r => rfl) (df.filter (fun r => decide (r.Year = y)))]
  rw [sumBy_map_inv strLe scrubGDP (fun r => r.Vehicle_Type) (fun r => r.Advertising_Expenditure)
    (fun r => rfl) (fun r => rfl) (df.filter (fun r => decide (r.Year = y)))]

theorem recession_output_scrub (df : List AutoRow) :
    recession_output (df.map scrubGDP) = recession_output df := by
  simp only [recession_output]
  rw [filter_map_inv scrubGDP (fun r => decide (r.Recession = 1)) (fun r => rfl) df]
  rw [meanBy_map_inv intLe scrubGDP (fun r => r.Year) (fun r => r.Automobile_Sales)
    (fun r => rfl) (fun r => rfl) (df.filter (fun r => decide (r.Recession = 1)))]
  rw [meanBy_map_inv strLe scrubGDP (fun r => r.Vehicle_Type) (fun r => r.Automobile_Sales)
    (fun r => rfl) (fun r => rfl) (df.filter (fun r => decide (r.Recession = 1)))]
  rw [sumBy_map_inv strLe scrubGDP (fun r => r.Vehicle_Type) (fun r => r.Advertising_Expenditure)
    (fun r => rfl) (fun r => rfl) (df.filter (fun r => decide (r.Recession = 1)))]
  rw [meanMeanBy_map_inv strLe scrubGDP (fun r => r.Vehicle_Type) (fun r => r.unemployment_rate)
    (fun r => r.Automobile_Sales) (fun r => rfl) (fun r => rfl) (fun r => rfl)
    (df.filter (fun r => decide (r.Recession = 1)))]

theorem update_output_scrub (df : List AutoRow) (rt : String) (y : Int) :
    update_output (df.map scrubGDP) rt y = update_output df rt y := by
  unfold update_output
  by_cases h : rt = "yearly"
  · simp only [if_pos h]
    exact yearly_output_scrub df y
  · simp only [if_neg h]
    exact recession_output_scrub df

/-- A one-row sales fixture with GDP 7. -/
def autoEx1 : List AutoRow := [⟨1980, "Jan", 100, "Sports", 5, 1, 3, 7⟩]

/-- The same fixture with GDP 9 and every other column unchanged. -/
def autoEx2 : List AutoRow := [⟨1980, "Jan", 100, "Sports", 5, 1, 3, 9⟩]

/-- C9: two datasets that agree on every column except GDP produce identical
outputs of the sales callback for every report type and selected year: no
aggregation reads the GDP column. -/
theorem C9_gdp_never_read (df1 df2 : List AutoRow)
    (h : df1.map scrubGDP = df2.map scrubGDP) (rt : String) (y : Int) :
    update_output df1 rt y = update_output df2 rt y := by
  rw [← update_output_scrub df1 rt y, h, update_output_scrub df2 rt y]

/-- C9 witness: the GDP-independence property instantiated on two one-row
fixtures that differ only in GDP. -/
theorem C9_gdp_never_read_witness :
    autoEx1.map scrubGDP = autoEx2.map scrubGDP
    ∧ update_output autoEx1 "yearly" 1980 = update_output autoEx2 "yearly" 1980 :=
  ⟨by decide, C9_gdp_never_read autoEx1 autoEx2 (by decide) "yearly" 1980⟩
